import Mathlib

/-!
Verification development for the municipal-dashboard script
(`streamlit_app.py`): a shallow embedding of its data-preparation and
chart-selection pipeline (schema validation, numeric coercion, row filter,
binning, Top-N selection, chart dispatch), with theorems checking the
specification's claims against it.

Modelling conventions: a spreadsheet cell is a `Value` (numeric, text, or
the missing marker, pandas' NaN); numbers are rationals; a table row is an
association list from column names to values; `pd.to_numeric(errors="coerce")`
is `toNumeric`; `pd.cut` with its default right-closed intervals and
`include_lowest=True` is `pdCut`; `DataFrame.nlargest` (which keeps the
first occurrence among ties and drops rows whose ranking value is missing)
is `nlargest`.  Chart builders take the dataframe and return the figure
together with the dataframe as it stands after the call, making in-place
mutation (the treemap's added column) observable.
-/

namespace DataViz

/-- A spreadsheet cell: a numeric value, a text value, or the missing
marker (pandas' NaN). -/
inductive Value where
  | vnum (x : Rat)
  | vstr (s : String)
  | vmissing
deriving DecidableEq

/-- One row: an association list from column name to cell value. -/
abbrev Row : Type := List (String × Value)

/-- The working table: column names plus rows. -/
structure Table where
  cols : List String
  rows : List Row
deriving DecidableEq

/-- Look a cell up in a row; a column absent from the row reads as the
missing marker. -/
def getCell (r : Row) (c : String) : Value :=
  match r with
  | [] => Value.vmissing
  | (k, v) :: rest => if k = c then v else getCell rest c

/-- The numeric content of a cell, if any. -/
def getNum (r : Row) (c : String) : Option Rat :=
  match getCell r c with
  | Value.vnum x => some x
  | _ => none

/-- The numeric content of a cell, defaulting to zero (used only on rows
already known to carry a number in the column). -/
def valD (r : Row) (c : String) : Rat :=
  (getNum r c).getD 0

/-! ### Numeric parsing, `pd.to_numeric(errors="coerce")` -/

/-- Parse a digit string into a natural number; any non-digit fails. -/
def parseNatAux : List Char → Nat → Option Nat
  | [], acc => some acc
  | c :: cs, acc =>
    if c.isDigit then parseNatAux cs (10 * acc + (c.toNat - 48)) else none

/-- Parse an unsigned decimal literal (digits, optionally a dot and more
digits) into a rational: `a.b` with `k` fractional digits denotes
`(a * 10 ^ k + b) / 10 ^ k`. -/
def parseUnsigned (cs : List Char) : Option Rat :=
  match cs.dropWhile (fun c => c ≠ '.') with
  | [] =>
    if cs.isEmpty then none
    else (parseNatAux cs 0).map (fun n => mkRat n 1)
  | _ :: fp =>
    let ip := cs.takeWhile (fun c => c ≠ '.')
    if ip.isEmpty && fp.isEmpty then none
    else
      match parseNatAux ip 0, parseNatAux fp 0 with
      | some n, some m => some (mkRat (n * 10 ^ fp.length + m) (10 ^ fp.length))
      | _, _ => none

/-- Parse a decimal string, with an optional leading minus sign. -/
def parseNumeric (s : String) : Option Rat :=
  match s.toList with
  | '-' :: cs => (parseUnsigned cs).map (fun x => -x)
  | cs => parseUnsigned cs

/-- `pd.to_numeric(v, errors="coerce")` on one cell: numbers pass through
unchanged, parseable strings become numbers, everything else becomes the
missing marker.  It never raises. -/
def toNumeric : Value → Value
  | Value.vnum x => Value.vnum x
  | Value.vstr s =>
    match parseNumeric s with
    | some x => Value.vnum x
    | none => Value.vmissing
  | Value.vmissing => Value.vmissing

/-- Coerce one cell of a row if it belongs to the designated column. -/
def coerceCell (c : String) (cell : String × Value) : String × Value :=
  if cell.1 = c then (cell.1, toNumeric cell.2) else cell

/-- `df[c] = pd.to_numeric(df[c], errors="coerce")`. -/
def coerceCol (c : String) (t : Table) : Table :=
  { cols := t.cols, rows := t.rows.map (fun r => r.map (coerceCell c)) }

/-! ### `load_data` -/

/-- The exact required-column list of `load_data`. -/
def colunas_esperadas : List String :=
  ["Municipio", "cod_IBGE", "IDH-M_2010", "Populacao_2010", "Densidade_2010",
   "Populacao_2022", "Densidade_2022", "PIBcapita_2019", "PIBcapita_2021",
   "Crescimento_populacional_abs", "Crescimento_populacional_pct",
   "Crescimento_PIBcapita_abs", "Crescimento_PIBcapita_pct"]

/-- The eleven columns `load_data` coerces with `pd.to_numeric`, in the
order of the source (`Municipio` and `cod_IBGE` are not coerced). -/
def coercedCols : List String :=
  ["Populacao_2010", "Densidade_2010", "IDH-M_2010", "Populacao_2022",
   "Densidade_2022", "PIBcapita_2019", "PIBcapita_2021",
   "Crescimento_populacional_abs", "Crescimento_populacional_pct",
   "Crescimento_PIBcapita_abs", "Crescimento_PIBcapita_pct"]

/-- Fold of `coerceCol` over a list of columns. -/
def coerceFold (cs : List String) (t : Table) : Table :=
  match cs with
  | [] => t
  | c :: rest => coerceFold rest (coerceCol c t)

/-- The block of eleven `pd.to_numeric` assignments in `load_data`. -/
def coerceAll (t : Table) : Table :=
  coerceFold coercedCols t

/-- `df.dropna(subset=...)`: keep exactly the rows with no missing marker
in any subset column. -/
def dropna (subset : List String) (t : Table) : Table :=
  { cols := t.cols,
    rows := t.rows.filter (fun r => subset.all (fun c => decide (getCell r c ≠ Value.vmissing))) }

/-- The required column names absent from the table
(`[c for c in colunas_esperadas if c not in df.columns]`). -/
def faltandoOf (t : Table) : List String :=
  colunas_esperadas.filter (fun c => decide (c ∉ t.cols))

/-- `load_data` after the spreadsheet read: validate the schema (raising
`KeyError` with every missing name if any is absent), coerce the eleven
numeric columns, then drop rows missing `Municipio` or `Populacao_2022`. -/
def load_data (t : Table) : Except (List String) Table :=
  let faltando := faltandoOf t
  if faltando.isEmpty then
    Except.ok (dropna ["Municipio", "Populacao_2022"] (coerceAll t))
  else
    Except.error faltando

/-! ### Theorems: schema validation (C6) and coercion totality (C7) -/

/-- A small table missing every required column but `Municipio`. -/
def tableMissingCols : Table :=
  { cols := ["Municipio", "Regiao"], rows := [] }

/-- A well-formed two-row table used to exercise the load pipeline. -/
def tableOkSmall : Table :=
  { cols := colunas_esperadas,
    rows := [[("Municipio", Value.vstr "Alpha"), ("Populacao_2022", Value.vnum 1000)],
             [("Municipio", Value.vmissing), ("Populacao_2022", Value.vnum 500)]] }

/-- Claim C6: schema validation computes exactly the required names absent
from the table; loading fails with that full list if and only if it is
non-empty, and on failure coercion and filtering are never reached (the
result is the bare error); on success the coerce-then-filter pipeline runs. -/
theorem load_data_schema_validation (t : Table) :
    (faltandoOf t = colunas_esperadas.filter (fun c => decide (c ∉ t.cols))) ∧
    (faltandoOf t ≠ [] → load_data t = Except.error (faltandoOf t)) ∧
    (faltandoOf t = [] →
      load_data t = Except.ok (dropna ["Municipio", "Populacao_2022"] (coerceAll t))) := by
  refine ⟨rfl, ?_, ?_⟩
  · intro h
    unfold load_data
    simp [List.isEmpty_iff, h]
  · intro h
    unfold load_data
    simp [List.isEmpty_iff, h]

/-- Witness for C6: on a table missing twelve required columns, `load_data`
fails listing all twelve; on a complete table it proceeds to
coercion and filtering. -/
theorem load_data_schema_validation_witness :
    load_data tableMissingCols =
      Except.error ["cod_IBGE", "IDH-M_2010", "Populacao_2010", "Densidade_2010",
        "Populacao_2022", "Densidade_2022", "PIBcapita_2019", "PIBcapita_2021",
        "Crescimento_populacional_abs", "Crescimento_populacional_pct",
        "Crescimento_PIBcapita_abs", "Crescimento_PIBcapita_pct"] ∧
    load_data tableOkSmall =
      Except.ok (dropna ["Municipio", "Populacao_2022"] (coerceAll tableOkSmall)) := by
  constructor
  · have h := (load_data_schema_validation tableMissingCols).2.1 (by decide)
    rw [h]
    simp only [Except.error.injEq]
    decide
  · exact (load_data_schema_validation tableOkSmall).2.2 (by decide)

/-- Claim C7: `pd.to_numeric(errors="coerce")` never raises and is total —
every cell becomes either a number or the missing marker (never a string);
already-numeric values are unchanged; a parseable string becomes its parsed
number and an unparseable one the missing marker; and coercing a column
keeps every row (no row is lost to a coercion error). -/
theorem toNumeric_total (v : Value) (s : String) (x : Rat) (c : String) (t : Table) :
    (toNumeric v = Value.vmissing ∨ ∃ y, toNumeric v = Value.vnum y) ∧
    (toNumeric (Value.vnum x) = Value.vnum x) ∧
    (parseNumeric s = some x → toNumeric (Value.vstr s) = Value.vnum x) ∧
    (parseNumeric s = none → toNumeric (Value.vstr s) = Value.vmissing) ∧
    ((coerceCol c t).rows.length = t.rows.length) := by
  refine ⟨?_, rfl, ?_, ?_, ?_⟩
  · cases v with
    | vnum y => exact Or.inr ⟨y, rfl⟩
    | vstr s' =>
      cases h : parseNumeric s' with
      | none => exact Or.inl (by simp [toNumeric, h])
      | some y => exact Or.inr ⟨y, by simp [toNumeric, h]⟩
    | vmissing => exact Or.inl rfl
  · intro h
    simp [toNumeric, h]
  · intro h
    simp [toNumeric, h]
  · simp [coerceCol]

/-- Witness for C7: the string cell "12.5" parses to 25/2, the cell "n/a"
becomes missing, and coercing a column of the two-row sample table keeps
both rows. -/
theorem toNumeric_total_witness :
    toNumeric (Value.vstr "12.5") = Value.vnum (mkRat 25 2) ∧
    toNumeric (Value.vstr "n/a") = Value.vmissing ∧
    (coerceCol "Populacao_2022" tableOkSmall).rows.length = tableOkSmall.rows.length := by
  refine ⟨?_, ?_, ?_⟩
  · exact (toNumeric_total Value.vmissing "12.5" (mkRat 25 2) "" tableOkSmall).2.2.1 (by decide)
  · exact (toNumeric_total Value.vmissing "n/a" 0 "" tableOkSmall).2.2.2.1 (by decide)
  · exact (toNumeric_total Value.vmissing "" 0 "Populacao_2022" tableOkSmall).2.2.2.2

/-! ### Binning: `pd.cut(df["IDH-M_2010"], bins=bins, labels=labels, include_lowest=True)`

`pd.cut` with its default `right=True` uses right-closed intervals
`(b_i, b_(i+1)]`; with `include_lowest=True` the first interval is closed
on the left as well, `[b_0, b_1]`.  A value outside the overall range (or a
non-numeric cell) gets no label, pandas' NaN category. -/

/-- Walk the boundary list: the value gets the current label when it does
not exceed the current upper boundary, right-closed intervals. -/
def cutRight (x : Rat) : List Rat → List String → Option String
  | _ :: hi :: bs, l :: ls => if x ≤ hi then some l else cutRight x (hi :: bs) ls
  | _, _ => none

/-- `pd.cut(x, bins, labels, include_lowest=True)` on a single value:
below the first boundary means unclassified, otherwise right-closed
interval lookup. -/
def pdCut (x : Rat) (bs : List Rat) (ls : List String) : Option String :=
  match bs with
  | [] => none
  | lo :: _ => if x < lo then none else cutRight x bs ls

/-- The treemap's bin boundaries `[0.0, 0.6, 0.7, 0.8, 0.9, 1.0]`. -/
def idhBins : List Rat :=
  [0, mkRat 6 10, mkRat 7 10, mkRat 8 10, mkRat 9 10, 1]

/-- The treemap's bin labels. -/
def idhLabels : List String :=
  ["<0.6", "0.6–0.7", "0.7–0.8", "0.8–0.9", "≥0.9"]

/-- The `Faixa_IDH_2010` cell produced for one record: the bin label of a
numeric in-range IDH value, otherwise the missing marker (pandas' NaN
category). -/
def faixaCell (v : Value) : Value :=
  match v with
  | Value.vnum x =>
    match pdCut x idhBins idhLabels with
    | some l => Value.vstr l
    | none => Value.vmissing
  | _ => Value.vmissing

/-- Claim C3 (amended): the binning is upper-bound-inclusive.  A value
exactly equal to an interior boundary receives the label of the bin whose
UPPER bound equals it: 0.6 is labeled "<0.6" (not "0.6–0.7"), 0.7 is
"0.6–0.7", 0.8 is "0.7–0.8", 0.9 is "0.8–0.9"; the global minimum 0 falls
in the first bin and the global maximum 1 in the last. -/
theorem pdCut_boundary_upper_inclusive :
    pdCut (mkRat 6 10) idhBins idhLabels = some "<0.6" ∧
    pdCut (mkRat 7 10) idhBins idhLabels = some "0.6–0.7" ∧
    pdCut (mkRat 8 10) idhBins idhLabels = some "0.7–0.8" ∧
    pdCut (mkRat 9 10) idhBins idhLabels = some "0.8–0.9" ∧
    pdCut 0 idhBins idhLabels = some "<0.6" ∧
    pdCut 1 idhBins idhLabels = some "≥0.9" := by
  refine ⟨?_, ?_, ?_, ?_, ?_, ?_⟩ <;> decide

/-- Counterexample to claim C3 as stated: the value exactly 0.6 does NOT
get the label "0.6–0.7" of the bin whose lower bound is 0.6; it gets
"<0.6", because `pd.cut`'s intervals are right-closed, not
lower-bound-inclusive. -/
theorem pdCut_boundary_cex :
    pdCut (mkRat 6 10) idhBins idhLabels = some "<0.6" ∧
    pdCut (mkRat 6 10) idhBins idhLabels ≠ some "0.6–0.7" := by
  refine ⟨?_, ?_⟩ <;> decide

/-- Claim C8: the binning classifier is total and deterministic on the bin
range: every rational in [0, 1] receives exactly one of the five declared
labels — one exists, it is among the labels, it is unique — and repeated
application to the same value yields the same label. -/
theorem pdCut_total_deterministic (x : Rat) (h0 : 0 ≤ x) (h1 : x ≤ 1) :
    (∃ l, pdCut x idhBins idhLabels = some l ∧ l ∈ idhLabels) ∧
    (∀ l l', pdCut x idhBins idhLabels = some l →
      pdCut x idhBins idhLabels = some l' → l = l') ∧
    pdCut x idhBins idhLabels = pdCut x idhBins idhLabels := by
  refine ⟨?_, ?_, rfl⟩
  · simp only [pdCut, idhBins, idhLabels, cutRight]
    have hlt : ¬ x < 0 := not_lt.mpr h0
    simp only [hlt, if_false]
    by_cases h6 : x ≤ mkRat 6 10
    · exact ⟨"<0.6", by simp [h6]⟩
    by_cases h7 : x ≤ mkRat 7 10
    · exact ⟨"0.6–0.7", by simp [h6, h7]⟩
    by_cases h8 : x ≤ mkRat 8 10
    · exact ⟨"0.7–0.8", by simp [h6, h7, h8]⟩
    by_cases h9 : x ≤ mkRat 9 10
    · exact ⟨"0.8–0.9", by simp [h6, h7, h8, h9]⟩
    · exact ⟨"≥0.9", by simp [h6, h7, h8, h9, h1]⟩
  · intro l l' h h'
    rw [h] at h'
    exact Option.some.inj h'

/-- Witness for C8: the value 0.65 lies in [0, 1] and receives exactly the
label "0.6–0.7". -/
theorem pdCut_total_deterministic_witness :
    (0 : Rat) ≤ mkRat 65 100 ∧ mkRat 65 100 ≤ 1 ∧
    ∃ l, pdCut (mkRat 65 100) idhBins idhLabels = some l ∧ l ∈ idhLabels := by
  refine ⟨by decide, by decide, ?_⟩
  exact (pdCut_total_deterministic (mkRat 65 100) (by decide) (by decide)).1

/-! ### Stable sorting, `DataFrame.nlargest` and `sort_values`

`df.nlargest(n, c)` keeps the first occurrence among ties (`keep="first"`)
and silently drops every row whose ranking value is missing; it is modelled
as a stable descending insertion sort of the rows carrying a number in the
ranking column, followed by `take n`.  `df.sort_values(c)` is modelled as
an ascending sort (the claims do not depend on tie order there). -/

/-- Stable descending insert: the new element goes in front of the first
element whose key does not exceed its own, hence behind every earlier
element with an equal key. -/
def insertDesc {α : Type} (key : α → Rat) (a : α) : List α → List α
  | [] => [a]
  | b :: l => if key b ≤ key a then a :: b :: l else b :: insertDesc key a l

/-- Stable descending insertion sort. -/
def sortDesc {α : Type} (key : α → Rat) : List α → List α
  | [] => []
  | a :: l => insertDesc key a (sortDesc key l)

/-- Stable ascending insert. -/
def insertAsc {α : Type} (key : α → Rat) (a : α) : List α → List α
  | [] => [a]
  | b :: l => if key a ≤ key b then a :: b :: l else b :: insertAsc key a l

/-- Stable ascending insertion sort. -/
def sortAsc {α : Type} (key : α → Rat) : List α → List α
  | [] => []
  | a :: l => insertAsc key a (sortAsc key l)

theorem insertDesc_perm {α : Type} (key : α → Rat) (a : α) (l : List α) :
    (insertDesc key a l).Perm (a :: l) := by
  induction l with
  | nil => exact List.Perm.refl _
  | cons b l ih =>
    simp only [insertDesc]
    by_cases h : key b ≤ key a
    · rw [if_pos h]
    · rw [if_neg h]
      exact (ih.cons b).trans (List.Perm.swap a b l)

theorem sortDesc_perm {α : Type} (key : α → Rat) (l : List α) :
    (sortDesc key l).Perm l := by
  induction l with
  | nil => exact List.Perm.refl _
  | cons a l ih => exact (insertDesc_perm key a (sortDesc key l)).trans (ih.cons a)

theorem insertDesc_pairwise {α : Type} (key : α → Rat) (a : α) (l : List α)
    (h : l.Pairwise (fun x y => key y ≤ key x)) :
    (insertDesc key a l).Pairwise (fun x y => key y ≤ key x) := by
  induction l with
  | nil => simp [insertDesc]
  | cons b l ih =>
    rcases List.pairwise_cons.mp h with ⟨hb, hl⟩
    simp only [insertDesc]
    by_cases hba : key b ≤ key a
    · rw [if_pos hba]
      refine List.pairwise_cons.mpr ⟨?_, h⟩
      intro y hy
      rcases List.mem_cons.mp hy with rfl | hy'
      · exact hba
      · exact le_trans (hb y hy') hba
    · rw [if_neg hba]
      refine List.pairwise_cons.mpr ⟨?_, ih hl⟩
      intro y hy
      rcases List.mem_cons.mp ((insertDesc_perm key a l).mem_iff.mp hy) with rfl | hy'
      · exact (not_le.mp hba).le
      · exact hb y hy'

theorem sortDesc_pairwise {α : Type} (key : α → Rat) (l : List α) :
    (sortDesc key l).Pairwise (fun x y => key y ≤ key x) := by
  induction l with
  | nil => simp [sortDesc]
  | cons a l ih => exact insertDesc_pairwise key a (sortDesc key l) ih

theorem insertAsc_perm {α : Type} (key : α → Rat) (a : α) (l : List α) :
    (insertAsc key a l).Perm (a :: l) := by
  induction l with
  | nil => exact List.Perm.refl _
  | cons b l ih =>
    simp only [insertAsc]
    by_cases h : key a ≤ key b
    · rw [if_pos h]
    · rw [if_neg h]
      exact (ih.cons b).trans (List.Perm.swap a b l)

theorem sortAsc_perm {α : Type} (key : α → Rat) (l : List α) :
    (sortAsc key l).Perm l := by
  induction l with
  | nil => exact List.Perm.refl _
  | cons a l ih => exact (insertAsc_perm key a (sortAsc key l)).trans (ih.cons a)

theorem insertAsc_pairwise {α : Type} (key : α → Rat) (a : α) (l : List α)
    (h : l.Pairwise (fun x y => key x ≤ key y)) :
    (insertAsc key a l).Pairwise (fun x y => key x ≤ key y) := by
  induction l with
  | nil => simp [insertAsc]
  | cons b l ih =>
    rcases List.pairwise_cons.mp h with ⟨hb, hl⟩
    simp only [insertAsc]
    by_cases hab : key a ≤ key b
    · rw [if_pos hab]
      refine List.pairwise_cons.mpr ⟨?_, h⟩
      intro y hy
      rcases List.mem_cons.mp hy with rfl | hy'
      · exact hab
      · exact le_trans hab (hb y hy')
    · rw [if_neg hab]
      refine List.pairwise_cons.mpr ⟨?_, ih hl⟩
      intro y hy
      rcases List.mem_cons.mp ((insertAsc_perm key a l).mem_iff.mp hy) with rfl | hy'
      · exact (not_le.mp hab).le
      · exact hb y hy'

theorem sortAsc_pairwise {α : Type} (key : α → Rat) (l : List α) :
    (sortAsc key l).Pairwise (fun x y => key x ≤ key y) := by
  induction l with
  | nil => simp [sortAsc]
  | cons a l ih => exact insertAsc_pairwise key a (sortAsc key l) ih

theorem insertDesc_filter_key {α : Type} (key : α → Rat) (a : α) (l : List α) (k : Rat) :
    (insertDesc key a l).filter (fun x => decide (key x = k)) =
      if key a = k then a :: l.filter (fun x => decide (key x = k))
      else l.filter (fun x => decide (key x = k)) := by
  induction l with
  | nil =>
    by_cases h : key a = k
    · simp [insertDesc, List.filter, h]
    · simp [insertDesc, List.filter, h]
  | cons b l ih =>
    simp only [insertDesc]
    by_cases hba : key b ≤ key a
    · rw [if_pos hba]
      by_cases ha : key a = k
      · simp [List.filter_cons, ha]
      · simp [List.filter_cons, ha]
    · rw [if_neg hba]
      by_cases hbk : key b = k
      · have hak : ¬ key a = k := by
          intro hak
          exact hba (le_of_eq (hbk.trans hak.symm))
        simp [List.filter_cons, hbk, hak, ih]
      · by_cases hak : key a = k
        · simp [List.filter_cons, hbk, hak, ih]
        · simp [List.filter_cons, hbk, hak, ih]

theorem sortDesc_filter_key {α : Type} (key : α → Rat) (l : List α) (k : Rat) :
    (sortDesc key l).filter (fun x => decide (key x = k)) =
      l.filter (fun x => decide (key x = k)) := by
  induction l with
  | nil => rfl
  | cons a l ih =>
    simp only [sortDesc]
    rw [insertDesc_filter_key]
    by_cases ha : key a = k
    · simp [List.filter_cons, ha, ih]
    · simp [List.filter_cons, ha, ih]

/-! ### Top-N selection -/

/-- The rows eligible for ranking on column `c`: those carrying a numeric
value there (`nlargest` silently drops the rest). -/
def rankCandidates (c : String) (t : Table) : List Row :=
  t.rows.filter (fun r => (getNum r c).isSome)

/-- The eligible rows in stable descending order of the ranking column. -/
def rankedDesc (c : String) (t : Table) : List Row :=
  sortDesc (fun r => valD r c) (rankCandidates c t)

/-- The rows `df.nlargest(n, c)` selects. -/
def topNRows (n : Nat) (c : String) (t : Table) : List Row :=
  (rankedDesc c t).take n

/-- The eligible rows `df.nlargest(n, c)` leaves out. -/
def belowTopRows (n : Nat) (c : String) (t : Table) : List Row :=
  (rankedDesc c t).drop n

/-- `df.nlargest(n, c)` as a table. -/
def nlargest (n : Nat) (c : String) (t : Table) : Table :=
  { cols := t.cols, rows := topNRows n c t }

/-- `df.sort_values(c)`: rows in ascending order of column `c`. -/
def sort_values (c : String) (t : Table) : Table :=
  { cols := t.cols, rows := sortAsc (fun r => valD r c) t.rows }

/-- Claim C5 (amended): Top-N selection returns exactly
`min N (number of rows with a non-missing ranking value)` rows (pandas'
`nlargest` drops rows whose ranking value is missing, so a dataset with
missing values in the ranking column can yield fewer than `min N |dataset|`
rows); every selected row's ranking value is at least every excluded
eligible row's; ties are broken by original row order (for each value `k`,
the selected rows with value `k` followed by the excluded ones with value
`k` are exactly the eligible rows with value `k` in original order); the
display stage orders the selected rows ascending by the ranking column; and
`N` at least the number of eligible rows selects them all rather than
raising an error. -/
theorem topN_selection_spec (n : Nat) (c : String) (t : Table) :
    (topNRows n c t).length = min n (rankCandidates c t).length ∧
    (∀ r ∈ topNRows n c t, ∀ r' ∈ belowTopRows n c t, valD r' c ≤ valD r c) ∧
    (∀ k : Rat, (topNRows n c t).filter (fun r => decide (valD r c = k)) ++
        (belowTopRows n c t).filter (fun r => decide (valD r c = k)) =
      (rankCandidates c t).filter (fun r => decide (valD r c = k))) ∧
    ((sort_values c (nlargest n c t)).rows.Perm (topNRows n c t)) ∧
    ((sort_values c (nlargest n c t)).rows.Pairwise (fun r r' => valD r c ≤ valD r' c)) ∧
    ((rankCandidates c t).length ≤ n → (topNRows n c t).Perm (rankCandidates c t)) := by
  have hsplit : rankedDesc c t = topNRows n c t ++ belowTopRows n c t :=
    (List.take_append_drop n (rankedDesc c t)).symm
  have hperm : (rankedDesc c t).Perm (rankCandidates c t) :=
    sortDesc_perm (fun r => valD r c) (rankCandidates c t)
  refine ⟨?_, ?_, ?_, ?_, ?_, ?_⟩
  · unfold topNRows
    rw [List.length_take, hperm.length_eq]
  · have hp := sortDesc_pairwise (fun r => valD r c) (rankCandidates c t)
    rw [show sortDesc (fun r => valD r c) (rankCandidates c t) = rankedDesc c t from rfl,
      hsplit] at hp
    exact (List.pairwise_append.mp hp).2.2
  · intro k
    have hstab := sortDesc_filter_key (fun r => valD r c) (rankCandidates c t) k
    rw [show sortDesc (fun r => valD r c) (rankCandidates c t) = rankedDesc c t from rfl,
      hsplit] at hstab
    rw [← hstab, List.filter_append]
  · exact sortAsc_perm (fun r => valD r c) (topNRows n c t)
  · exact sortAsc_pairwise (fun r => valD r c) (topNRows n c t)
  · intro h
    unfold topNRows
    rw [List.take_of_length_le (by rw [hperm.length_eq]; exact h)]
    exact hperm

/-- A Top-N counterexample table: two rows, the second with a missing
density. -/
def rowAlpha : Row :=
  [("Municipio", Value.vstr "Alpha"), ("Populacao_2022", Value.vnum 1000),
   ("Densidade_2022", Value.vnum 50)]

/-- Second row of the counterexample table, missing `Densidade_2022`. -/
def rowBeta : Row :=
  [("Municipio", Value.vstr "Beta"), ("Populacao_2022", Value.vnum 500),
   ("Densidade_2022", Value.vmissing)]

/-- Two-row table with one missing density value. -/
def tableDensMissing : Table :=
  { cols := colunas_esperadas, rows := [rowAlpha, rowBeta] }

/-- Counterexample to claim C5 as stated: on a two-row dataset whose second
row has a missing `Densidade_2022`, Top-2 selection on that column returns
one row, not `min 2 |dataset| = 2` — `nlargest` silently drops the row with
the missing ranking value instead of counting it. -/
theorem topN_min_count_cex :
    (nlargest 2 "Densidade_2022" tableDensMissing).rows.length = 1 ∧
    min 2 tableDensMissing.rows.length = 2 := by
  constructor
  · decide
  · decide

/-- Witness for C5: on the concrete two-row table ranked by
`Populacao_2022` (both rows eligible), the excluded row's value is at most
the selected row's for Top-1, and Top-2 returns all eligible rows. -/
theorem topN_selection_spec_witness :
    valD rowBeta "Populacao_2022" ≤ valD rowAlpha "Populacao_2022" ∧
    (topNRows 2 "Populacao_2022" tableDensMissing).Perm
      (rankCandidates "Populacao_2022" tableDensMissing) := by
  constructor
  · exact (topN_selection_spec 1 "Populacao_2022" tableDensMissing).2.1
      rowAlpha (by decide) rowBeta (by decide)
  · exact (topN_selection_spec 2 "Populacao_2022" tableDensMissing).2.2.2.2.2 (by decide)

/-! ### Chart builders

Each builder is modelled as a function from the dataframe to the produced
chart specification together with the dataframe as it stands after the
call, so that in-place mutation (pandas assignment `df[col] = ...` mutates
the caller's object) is observable in the second component. -/

/-- The essence of a Plotly Express figure: chart kind, the data handed to
the plotting call, the two main encodings, and the title. -/
structure Figure where
  kind : String
  data : List Row
  xenc : String
  yenc : String
  title : String
deriving DecidableEq

/-- `df[c] = ...` for a fresh column: append the column name and give every
row a computed cell. -/
def addCol (c : String) (f : Row → Value) (t : Table) : Table :=
  { cols := t.cols ++ [c],
    rows := t.rows.map (fun r => r ++ ([(c, f r)] : Row)) }

/-- View 1: horizontal bar chart of the ten largest 2022 populations,
displayed in ascending order. -/
def plot_top10_pop2022 (df : Table) : Figure × Table :=
  ({ kind := "bar",
     data := (sort_values "Populacao_2022" (nlargest 10 "Populacao_2022" df)).rows,
     xenc := "Populacao_2022", yenc := "Municipio",
     title := "Top 10 Municípios por População (2022)" }, df)

/-- View 2: horizontal bar chart of the ten largest 2022 densities. -/
def plot_top10_dens2022 (df : Table) : Figure × Table :=
  ({ kind := "bar",
     data := (sort_values "Densidade_2022" (nlargest 10 "Densidade_2022" df)).rows,
     xenc := "Densidade_2022", yenc := "Municipio",
     title := "Top 10 Municípios por Densidade (2022)" }, df)

/-- View 3: histogram of 2019 GDP per capita. -/
def plot_hist_pib2019 (df : Table) : Figure × Table :=
  ({ kind := "histogram", data := df.rows, xenc := "PIBcapita_2019", yenc := "",
     title := "Distribuição de PIB per capita 2019" }, df)

/-- View 4: histogram of 2021 GDP per capita. -/
def plot_hist_pib2021 (df : Table) : Figure × Table :=
  ({ kind := "histogram", data := df.rows, xenc := "PIBcapita_2021", yenc := "",
     title := "Distribuição de PIB per capita 2021" }, df)

/-- View 5: scatter of 2021 GDP per capita against 2022 density. -/
def plot_scatter_pib21_dens22 (df : Table) : Figure × Table :=
  ({ kind := "scatter", data := df.rows, xenc := "PIBcapita_2021", yenc := "Densidade_2022",
     title := "PIB per capita (2021) vs Densidade (2022)" }, df)

/-- View 6: scatter of population growth against GDP-per-capita growth. -/
def plot_scatter_crescimentos (df : Table) : Figure × Table :=
  ({ kind := "scatter", data := df.rows,
     xenc := "Crescimento_populacional_pct", yenc := "Crescimento_PIBcapita_pct",
     title := "Crescimento Populacional (%) vs Crescimento PIB per capita (%)" }, df)

/-- View 7: boxplot of 2010 IDH-M. -/
def plot_boxplot_idhm2010 (df : Table) : Figure × Table :=
  ({ kind := "box", data := df.rows, xenc := "", yenc := "IDH-M_2010",
     title := "Boxplot: Distribuição de IDH-M (2010)" }, df)

/-- View 8: treemap of 2022 population grouped by IDH bins.  This builder
mutates the dataframe: `df["Faixa_IDH_2010"] = pd.cut(df["IDH-M_2010"], ...)`
adds a column in place before the plotting call. -/
def plot_treemap_pop2022_faixaidhm (df : Table) : Figure × Table :=
  let df2 := addCol "Faixa_IDH_2010" (fun r => faixaCell (getCell r "IDH-M_2010")) df
  ({ kind := "treemap", data := df2.rows, xenc := "Faixa_IDH_2010", yenc := "Populacao_2022",
     title := "Treemap: População 2022 por Faixa de IDH-M 2010" }, df2)

/-! ### Chart selector -/

/-- What one render pass produces: a chart under a markdown header, or
nothing at all (the if/elif chain has no else branch). -/
inductive RenderResult where
  | rendered (header : String) (fig : Figure)
  | noOutput
deriving DecidableEq

/-- The eight declared view identifiers of the sidebar selectbox. -/
def vis_options : List String :=
  ["1) Top 10 Municípios por População (2022)",
   "2) Top 10 Municípios por Densidade (2022)",
   "3) Histograma: PIB per capita 2019",
   "4) Histograma: PIB per capita 2021",
   "5) Scatter: PIB2021 vs Densidade2022 (bolhas por Pop2022)",
   "6) Scatter: Crescimento Pop (%) vs Crescimento PIB (%)",
   "7) Boxplot: IDH-M (2010)",
   "8) Treemap: População 2022 por Faixas de IDH-M 2010"]

/-- The conditional rendering block: the if/elif chain over `choice`.  No
else branch exists, so an unmatched identifier produces no output and
raises nothing. -/
def renderChoice (choice : String) (df : Table) : RenderResult × Table :=
  if choice = "1) Top 10 Municípios por População (2022)" then
    let r := plot_top10_pop2022 df
    (RenderResult.rendered "### Top 10 Municípios por População (2022)" r.1, r.2)
  else if choice = "2) Top 10 Municípios por Densidade (2022)" then
    let r := plot_top10_dens2022 df
    (RenderResult.rendered "### Top 10 Municípios por Densidade (2022)" r.1, r.2)
  else if choice = "3) Histograma: PIB per capita 2019" then
    let r := plot_hist_pib2019 df
    (RenderResult.rendered "### Histograma: PIB per capita 2019" r.1, r.2)
  else if choice = "4) Histograma: PIB per capita 2021" then
    let r := plot_hist_pib2021 df
    (RenderResult.rendered "### Histograma: PIB per capita 2021" r.1, r.2)
  else if choice = "5) Scatter: PIB2021 vs Densidade2022 (bolhas por Pop2022)" then
    let r := plot_scatter_pib21_dens22 df
    (RenderResult.rendered "### Scatter: PIB per capita 2021 vs Densidade 2022" r.1, r.2)
  else if choice = "6) Scatter: Crescimento Pop (%) vs Crescimento PIB (%)" then
    let r := plot_scatter_crescimentos df
    (RenderResult.rendered "### Scatter: Crescimento Pop (%) vs Crescimento PIB per capita (%)" r.1, r.2)
  else if choice = "7) Boxplot: IDH-M (2010)" then
    let r := plot_boxplot_idhm2010 df
    (RenderResult.rendered "### Boxplot: Distribuição de IDH-M (2010)" r.1, r.2)
  else if choice = "8) Treemap: População 2022 por Faixas de IDH-M 2010" then
    let r := plot_treemap_pop2022_faixaidhm df
    (RenderResult.rendered "### Treemap: População 2022 por Faixa de IDH-M (2010)" r.1, r.2)
  else
    (RenderResult.noOutput, df)

/-- Claim C2 (amended): the selector maps each of the eight declared view
identifiers to a rendered chart, and every identifier outside that set
silently renders nothing — no UnknownView failure exists in the code. -/
theorem renderChoice_dispatch (choice : String) (df : Table) :
    (choice ∈ vis_options → (renderChoice choice df).1 ≠ RenderResult.noOutput) ∧
    (choice ∉ vis_options → (renderChoice choice df).1 = RenderResult.noOutput) := by
  constructor
  · intro hmem
    simp only [vis_options, List.mem_cons, List.not_mem_nil, or_false] at hmem
    rcases hmem with rfl | rfl | rfl | rfl | rfl | rfl | rfl | rfl <;>
      simp [renderChoice]
  · intro hmem
    simp only [vis_options, List.mem_cons, List.not_mem_nil, or_false, not_or] at hmem
    obtain ⟨h1, h2, h3, h4, h5, h6, h7, h8⟩ := hmem
    unfold renderChoice
    rw [if_neg h1, if_neg h2, if_neg h3, if_neg h4, if_neg h5, if_neg h6, if_neg h7, if_neg h8]

/-- Witness for C2: the first declared identifier renders a chart on the
sample table, and the undeclared identifier "9) Mapa" renders nothing. -/
theorem renderChoice_dispatch_witness :
    (renderChoice "1) Top 10 Municípios por População (2022)" tableOkSmall).1 ≠
      RenderResult.noOutput ∧
    (renderChoice "9) Mapa" tableOkSmall).1 = RenderResult.noOutput := by
  constructor
  · exact (renderChoice_dispatch "1) Top 10 Municípios por População (2022)" tableOkSmall).1
      (by decide)
  · exact (renderChoice_dispatch "9) Mapa" tableOkSmall).2 (by decide)

/-- Counterexample to claim C2 as stated: an identifier outside the
declared set does not fail with UnknownView — the selector silently
produces no output and leaves the dataframe untouched. -/
theorem renderChoice_unknown_silent_cex :
    (renderChoice "9) Mapa Coroplético: População 2022" tableOkSmall).1 =
      RenderResult.noOutput ∧
    (renderChoice "9) Mapa Coroplético: População 2022" tableOkSmall).2 = tableOkSmall := by
  constructor
  · rfl
  · rfl

/-- Claim C4 (amended): seven of the eight chart builders hand the
dataframe back unchanged, but the treemap builder mutates it — it appends
the `Faixa_IDH_2010` column (every pre-existing column and cell is kept,
each row merely gains the new cell), so the dataframe after the treemap
call differs from the one passed in. -/
theorem chart_builders_frame (df : Table) :
    (plot_top10_pop2022 df).2 = df ∧
    (plot_top10_dens2022 df).2 = df ∧
    (plot_hist_pib2019 df).2 = df ∧
    (plot_hist_pib2021 df).2 = df ∧
    (plot_scatter_pib21_dens22 df).2 = df ∧
    (plot_scatter_crescimentos df).2 = df ∧
    (plot_boxplot_idhm2010 df).2 = df ∧
    (plot_treemap_pop2022_faixaidhm df).2.cols = df.cols ++ ["Faixa_IDH_2010"] ∧
    (plot_treemap_pop2022_faixaidhm df).2.rows =
      df.rows.map (fun r => r ++ ([("Faixa_IDH_2010",
        faixaCell (getCell r "IDH-M_2010"))] : Row)) ∧
    (plot_treemap_pop2022_faixaidhm df).2 ≠ df := by
  refine ⟨rfl, rfl, rfl, rfl, rfl, rfl, rfl, rfl, rfl, ?_⟩
  intro h
  have hc : df.cols ++ ["Faixa_IDH_2010"] = df.cols := congrArg Table.cols h
  have hl := congrArg List.length hc
  simp at hl

/-- Counterexample to claim C4 as stated: invoking the treemap builder on
the sample table changes the table — a column is added in place. -/
theorem chart_builder_mutates_cex :
    (plot_treemap_pop2022_faixaidhm tableOkSmall).2 ≠ tableOkSmall := by
  decide

/-! ### What survives `load_data`: coerced shapes and the row filter -/

/-- A cell that is either numeric or the missing marker (the only shapes
`pd.to_numeric(errors="coerce")` can produce). -/
def numOrMissing (v : Value) : Prop :=
  v = Value.vmissing ∨ ∃ x, v = Value.vnum x

theorem toNumeric_shape (v : Value) : numOrMissing (toNumeric v) := by
  cases v with
  | vnum x => exact Or.inr ⟨x, rfl⟩
  | vstr s =>
    cases h : parseNumeric s with
    | none => exact Or.inl (by simp [toNumeric, h])
    | some y => exact Or.inr ⟨y, by simp [toNumeric, h]⟩
  | vmissing => exact Or.inl rfl

theorem coerceCell_pair (c k : String) (v : Value) :
    coerceCell c (k, v) = if k = c then (k, toNumeric v) else (k, v) := by
  unfold coerceCell
  by_cases h : k = c
  · simp [h]
  · simp [h]

theorem getCell_map_coerce_self (r : Row) (c : String) :
    getCell (r.map (coerceCell c)) c = toNumeric (getCell r c) := by
  induction r with
  | nil => rfl
  | cons p r ih =>
    obtain ⟨k, v⟩ := p
    rw [List.map_cons, coerceCell_pair]
    by_cases hk : k = c
    · rw [if_pos hk]
      simp [getCell, hk]
    · rw [if_neg hk]
      simp [getCell, hk, ih]

theorem getCell_map_coerce_ne (r : Row) (c c' : String) (h : c' ≠ c) :
    getCell (r.map (coerceCell c)) c' = getCell r c' := by
  induction r with
  | nil => rfl
  | cons p r ih =>
    obtain ⟨k, v⟩ := p
    rw [List.map_cons, coerceCell_pair]
    by_cases hk : k = c
    · subst hk
      rw [if_pos rfl]
      simp [getCell, Ne.symm h, ih]
    · rw [if_neg hk]
      by_cases hkc : k = c'
      · simp [getCell, hkc, ih]
      · simp [getCell, hkc, ih]

theorem coerceCol_rows_shape (c : String) (t : Table) :
    ∀ r ∈ (coerceCol c t).rows, numOrMissing (getCell r c) := by
  intro r hr
  rcases List.mem_map.mp hr with ⟨r₀, _, rfl⟩
  rw [getCell_map_coerce_self]
  exact toNumeric_shape _

theorem coerceCol_shape_preserved (c' c : String) (t : Table)
    (h : ∀ r ∈ t.rows, numOrMissing (getCell r c)) :
    ∀ r ∈ (coerceCol c' t).rows, numOrMissing (getCell r c) := by
  intro r hr
  by_cases hc : c' = c
  · subst hc
    exact coerceCol_rows_shape c' t r hr
  · rcases List.mem_map.mp hr with ⟨r₀, hr₀, rfl⟩
    rw [getCell_map_coerce_ne r₀ c' c (fun hh => hc hh.symm)]
    exact h r₀ hr₀

theorem coerceFold_shape_preserved (cs : List String) (c : String) (t : Table)
    (h : ∀ r ∈ t.rows, numOrMissing (getCell r c)) :
    ∀ r ∈ (coerceFold cs t).rows, numOrMissing (getCell r c) := by
  induction cs generalizing t with
  | nil => exact h
  | cons c₀ rest ih =>
    exact ih (coerceCol c₀ t) (coerceCol_shape_preserved c₀ c t h)

theorem coerceFold_shape (cs : List String) (c : String) :
    ∀ t : Table, c ∈ cs → ∀ r ∈ (coerceFold cs t).rows, numOrMissing (getCell r c) := by
  induction cs with
  | nil =>
    intro t hc
    exact absurd hc (List.not_mem_nil c)
  | cons c₀ rest ih =>
    intro t hc
    by_cases hrest : c ∈ rest
    · exact ih (coerceCol c₀ t) hrest
    · have hc0 : c = c₀ := by
        rcases List.mem_cons.mp hc with h | h
        · exact h
        · exact absurd h hrest
      subst hc0
      exact coerceFold_shape_preserved rest c (coerceCol c t)
        (coerceCol_rows_shape c t)

theorem dropna_mem (sub : List String) (t : Table) (r : Row) :
    r ∈ (dropna sub t).rows ↔
      r ∈ t.rows ∧ ∀ c ∈ sub, getCell r c ≠ Value.vmissing := by
  unfold dropna
  simp [List.mem_filter, List.all_eq_true, decide_eq_true_eq]

theorem load_data_ok_eq (t t' : Table) (h : load_data t = Except.ok t') :
    t' = dropna ["Municipio", "Populacao_2022"] (coerceAll t) := by
  unfold load_data at h
  by_cases hf : (faltandoOf t).isEmpty
  · rw [if_pos hf] at h
    exact (Except.ok.inj h).symm
  · rw [if_neg hf] at h
    exact Except.noConfusion h

/-- Claim C9: the row filter of `load_data` checks exactly `Municipio` and
`Populacao_2022` — a coerced record survives if and only if both are
non-missing, whatever its other columns hold. -/
theorem load_data_row_filter (t t' : Table) (h : load_data t = Except.ok t') (r : Row) :
    r ∈ t'.rows ↔
      r ∈ (coerceAll t).rows ∧ getCell r "Municipio" ≠ Value.vmissing ∧
        getCell r "Populacao_2022" ≠ Value.vmissing := by
  rw [load_data_ok_eq t t' h, dropna_mem]
  constructor
  · rintro ⟨hmem, hall⟩
    exact ⟨hmem, hall "Municipio" (by decide), hall "Populacao_2022" (by decide)⟩
  · rintro ⟨hmem, hm, hp⟩
    refine ⟨hmem, ?_⟩
    intro c hc
    rcases List.mem_cons.mp hc with rfl | hc'
    · exact hm
    · rcases List.mem_cons.mp hc' with rfl | hc''
      · exact hp
      · exact absurd hc'' (List.not_mem_nil c)

/-- A one-row table whose row has `Municipio` and `Populacao_2022` but
carries no other indicator cells — they all read as missing. -/
def rowGamma : Row :=
  [("Municipio", Value.vstr "Gamma"), ("Populacao_2022", Value.vnum 800)]

/-- One-row table around `rowGamma`. -/
def tableGamma : Table :=
  { cols := colunas_esperadas, rows := [rowGamma] }

/-- Witness for C9: the concrete row with missing `PIBcapita_2019` (a
required column) survives the filter because its `Municipio` and
`Populacao_2022` are present. -/
theorem load_data_row_filter_witness :
    rowGamma ∈ (dropna ["Municipio", "Populacao_2022"] (coerceAll tableGamma)).rows ∧
    getCell rowGamma "PIBcapita_2019" = Value.vmissing := by
  constructor
  · exact (load_data_row_filter tableGamma _ rfl rowGamma).mpr
      ⟨by decide, by decide, by decide⟩
  · rfl

/-- Claim C1 (amended): after coercion and filtering, every surviving
record has a non-missing `Municipio`, a numeric `Populacao_2022`, and each
of the eleven coerced columns holds either a number or the missing marker
— but required columns other than `Municipio` and `Populacao_2022` may
still be missing (see the counterexample), and `cod_IBGE` is not coerced
at all. -/
theorem load_data_surviving_rows (t t' : Table) (h : load_data t = Except.ok t')
    (r : Row) (hr : r ∈ t'.rows) :
    getCell r "Municipio" ≠ Value.vmissing ∧
    (∃ x, getCell r "Populacao_2022" = Value.vnum x) ∧
    ∀ c ∈ coercedCols, (getCell r c = Value.vmissing ∨ ∃ x, getCell r c = Value.vnum x) := by
  rw [load_data_ok_eq t t' h, dropna_mem] at hr
  obtain ⟨hmem, hall⟩ := hr
  have hshapes : ∀ c ∈ coercedCols, numOrMissing (getCell r c) := by
    intro c hc
    exact coerceFold_shape coercedCols c t hc r hmem
  refine ⟨hall "Municipio" (by decide), ?_, hshapes⟩
  have hp := hall "Populacao_2022" (by decide)
  rcases hshapes "Populacao_2022" (by decide) with hmiss | hnum
  · exact absurd hmiss hp
  · exact hnum

/-- Witness for C1's amended statement: on the concrete one-row table, the
surviving row has a non-missing `Municipio`, a numeric `Populacao_2022`,
and its `IDH-M_2010` cell is numeric-or-missing. -/
theorem load_data_surviving_rows_witness :
    getCell rowGamma "Municipio" ≠ Value.vmissing ∧
    (∃ x, getCell rowGamma "Populacao_2022" = Value.vnum x) ∧
    (getCell rowGamma "IDH-M_2010" = Value.vmissing ∨
      ∃ x, getCell rowGamma "IDH-M_2010" = Value.vnum x) := by
  have h := load_data_surviving_rows tableGamma _ rfl rowGamma (by decide)
  exact ⟨h.1, h.2.1, h.2.2 "IDH-M_2010" (by decide)⟩

/-- Counterexample to claim C1 as stated: loading the one-row table
succeeds, the row survives the filter, yet its required column
`IDH-M_2010` is missing — the filter guarantees nothing beyond `Municipio`
and `Populacao_2022`. -/
theorem load_data_required_still_missing_cex :
    load_data tableGamma =
      Except.ok (dropna ["Municipio", "Populacao_2022"] (coerceAll tableGamma)) ∧
    rowGamma ∈ (dropna ["Municipio", "Populacao_2022"] (coerceAll tableGamma)).rows ∧
    "IDH-M_2010" ∈ colunas_esperadas ∧
    getCell rowGamma "IDH-M_2010" = Value.vmissing := by
  refine ⟨rfl, by decide, by decide, rfl⟩

/-! ### Claim C10: unbinnable IDH values get no treemap category -/

theorem pdCut_neg_none (x : Rat) (hx : x < 0) :
    pdCut x idhBins idhLabels = none := by
  simp [pdCut, idhBins, hx]

theorem pdCut_gt_one_none (x : Rat) (hx : 1 < x) :
    pdCut x idhBins idhLabels = none := by
  have hx0 : ¬ x < 0 := not_lt.mpr (lt_of_le_of_lt zero_le_one hx).le
  have h6 : ¬ x ≤ mkRat 6 10 := fun hh => not_le.mpr hx (le_trans hh (by decide))
  have h7 : ¬ x ≤ mkRat 7 10 := fun hh => not_le.mpr hx (le_trans hh (by decide))
  have h8 : ¬ x ≤ mkRat 8 10 := fun hh => not_le.mpr hx (le_trans hh (by decide))
  have h9 : ¬ x ≤ mkRat 9 10 := fun hh => not_le.mpr hx (le_trans hh (by decide))
  have h10 : ¬ x ≤ 1 := not_le.mpr hx
  simp [pdCut, cutRight, idhBins, idhLabels, hx0, h6, h7, h8, h9, h10]

theorem faixaCell_bad_missing (v : Value)
    (hbad : v = Value.vmissing ∨ (∃ s, v = Value.vstr s) ∨
      (∃ x, v = Value.vnum x ∧ (x < 0 ∨ 1 < x))) :
    faixaCell v = Value.vmissing := by
  rcases hbad with rfl | ⟨s, rfl⟩ | ⟨x, rfl, hx⟩
  · rfl
  · rfl
  · rcases hx with hx | hx
    · simp [faixaCell, pdCut_neg_none x hx]
    · simp [faixaCell, pdCut_gt_one_none x hx]

theorem getCell_append_fresh (r : Row) (c : String) (v : Value)
    (h : ∀ p ∈ r, p.1 ≠ c) : getCell (r ++ ([(c, v)] : Row)) c = v := by
  induction r with
  | nil => simp [getCell]
  | cons p r ih =>
    obtain ⟨k, w⟩ := p
    have hk : k ≠ c := h (k, w) (List.mem_cons_self _ _)
    simp only [List.cons_append, getCell, hk, if_false]
    exact ih (fun q hq => h q (List.mem_cons_of_mem _ hq))

/-- The treemap leaf group of a label: the rows whose `Faixa_IDH_2010`
category equals that label. -/
def treemapGroup (l : String) (rows : List Row) : List Row :=
  rows.filter (fun r => decide (getCell r "Faixa_IDH_2010" = Value.vstr l))

/-- Claim C10: a record whose `IDH-M_2010` is missing, non-numeric, or
outside [0, 1] receives the missing category (no label) in the treemap's
added `Faixa_IDH_2010` column — nothing is raised — and the record belongs
to none of the label groups. -/
theorem treemap_unbinned_excluded (df : Table) (r : Row)
    (hmem : r ∈ df.rows)
    (hfresh : ∀ p ∈ r, p.1 ≠ "Faixa_IDH_2010")
    (hbad : getCell r "IDH-M_2010" = Value.vmissing ∨
      (∃ s, getCell r "IDH-M_2010" = Value.vstr s) ∨
      (∃ x, getCell r "IDH-M_2010" = Value.vnum x ∧ (x < 0 ∨ 1 < x))) :
    ∃ r', r' ∈ (plot_treemap_pop2022_faixaidhm df).2.rows ∧
      getCell r' "Faixa_IDH_2010" = Value.vmissing ∧
      ∀ l, r' ∉ treemapGroup l (plot_treemap_pop2022_faixaidhm df).2.rows := by
  have hval : getCell
      (r ++ ([("Faixa_IDH_2010", faixaCell (getCell r "IDH-M_2010"))] : Row))
      "Faixa_IDH_2010" = Value.vmissing := by
    rw [getCell_append_fresh r "Faixa_IDH_2010" _ hfresh]
    exact faixaCell_bad_missing _ hbad
  refine ⟨r ++ ([("Faixa_IDH_2010", faixaCell (getCell r "IDH-M_2010"))] : Row),
    List.mem_map_of_mem _ hmem, hval, ?_⟩
  intro l hl
  have hc := (List.mem_filter.mp hl).2
  rw [decide_eq_true_eq, hval] at hc
  exact Value.noConfusion hc

/-- Out-of-range row for the C10 witness: its IDH value 2 exceeds 1. -/
def rowDelta : Row :=
  [("Municipio", Value.vstr "Delta"), ("Populacao_2022", Value.vnum 10),
   ("IDH-M_2010", Value.vnum 2)]

/-- One-row table around `rowDelta`. -/
def tableDelta : Table :=
  { cols := colunas_esperadas, rows := [rowDelta] }

/-- Witness for C10: the concrete out-of-range row ends up with the missing
category and in no treemap group. -/
theorem treemap_unbinned_excluded_witness :
    ∃ r', r' ∈ (plot_treemap_pop2022_faixaidhm tableDelta).2.rows ∧
      getCell r' "Faixa_IDH_2010" = Value.vmissing ∧
      ∀ l, r' ∉ treemapGroup l (plot_treemap_pop2022_faixaidhm tableDelta).2.rows :=
  treemap_unbinned_excluded tableDelta rowDelta (by decide) (by decide)
    (Or.inr (Or.inr ⟨2, rfl, Or.inr (by decide)⟩))

end DataViz
